import Mathlib

/-!
Verification of the DTrackSDK compatibility facades (`DTrack`, `DTrack2`,
`DTracklib`) against their design specification.

The development shallowly embeds the wrapper classes found in
`Compatibility/DTrack/DTrack.cpp`, `Compatibility/DTrack/DTrack.hpp`
(which also holds the `DTracklib.hpp` header) and
`Compatibility/DTrackLib/DTracklib.cpp` (which also contains the `DTrack2`
wrapper implementation); the `DTrack2.hpp` header with the `dtrack2_*`
typedefs and the `DTrack2` class members is among the unnamed sources.  C++ `int` is modelled as `ℤ`, `unsigned long` as `ℕ`, and the
floating-point types `double` / `float` as `ℚ`; the lossy `double → float`
cast is kept abstract as a parameter `d2f`.  Fixed-size C arrays are
functions out of `Fin n`; `std::vector` is `List`.  A vector access that may
be out of bounds is modelled with an `Option` result (`none` = undefined
behaviour of `operator[]`).  The underlying `DTrackSDK` object is an
external collaborator: its `receive` result is an `Option SdkFrame` oracle
argument and its command exchange is a `String → ℤ` oracle argument.
-/

/-- C++ `double`, modelled as a rational number. -/
abbrev CDouble := ℚ

/-- C++ `float`, modelled as a rational number; conversion from `CDouble`
is an abstract parameter `d2f` wherever the source casts. -/
abbrev CFloat := ℚ

/-- A.R.T. FlyStick data: maximum number of buttons (`DTrack.hpp`). -/
def DTRACK_FLYSTICK_MAX_BUTTON : ℕ := 16

/-- A.R.T. FlyStick data: maximum number of joystick values (`DTrack.hpp`). -/
def DTRACK_FLYSTICK_MAX_JOYSTICK : ℕ := 8

/-- Measurement tool data: maximum number of buttons (`DTrack.hpp`). -/
def DTRACK_MEATOOL_MAX_BUTTON : ℕ := 1

/-- A.R.T. Fingertracking hand data: maximum number of fingers (`DTrack.hpp`). -/
def DTRACK_HAND_MAX_FINGER : ℕ := 5

/-- Modelled from the spec: the `DTrackSDK` header declaring
`DTrack_Body_Type_d` is not among the sources; its fields (`id`, `quality`,
`loc[3]`, `rot[9]`, all `double` except the integer `id`) follow the
accesses in the wrapper code and the spec's entity-record data model. -/
structure DTrack_Body_Type_d where
  id : ℤ
  quality : CDouble
  loc : Fin 3 → CDouble
  rot : Fin 9 → CDouble

/-- Modelled from the spec: SDK-side FlyStick record, fields as read by the
wrapper copy loops (button and joystick arrays of the protocol maxima). -/
structure DTrack_FlyStick_Type_d where
  id : ℤ
  quality : CDouble
  num_button : ℤ
  button : Fin 16 → ℤ
  num_joystick : ℤ
  joystick : Fin 8 → CDouble
  loc : Fin 3 → CDouble
  rot : Fin 9 → CDouble

/-- Modelled from the spec: SDK-side measurement-tool record, fields as
read by the wrapper copy loops. -/
structure DTrack_MeaTool_Type_d where
  id : ℤ
  quality : CDouble
  num_button : ℤ
  button : Fin 16 → ℤ
  loc : Fin 3 → CDouble
  rot : Fin 9 → CDouble

/-- Modelled from the spec: SDK-side per-finger sub-record of a
Fingertracking hand, fields as read by the wrapper copy loops. -/
structure DTrack_Finger_Type_d where
  loc : Fin 3 → CDouble
  rot : Fin 9 → CDouble
  radiustip : CDouble
  lengthphalanx : Fin 3 → CDouble
  anglephalanx : Fin 2 → CDouble

/-- Modelled from the spec: SDK-side Fingertracking hand record, fields as
read by the wrapper copy loops. -/
structure DTrack_Hand_Type_d where
  id : ℤ
  quality : CDouble
  lr : ℤ
  nfinger : ℤ
  loc : Fin 3 → CDouble
  rot : Fin 9 → CDouble
  finger : Fin 5 → DTrack_Finger_Type_d

/-- Modelled from the spec: SDK-side single-marker record, fields as read
by the wrapper copy loops. -/
structure DTrack_Marker_Type_d where
  id : ℤ
  quality : CDouble
  loc : Fin 3 → CDouble

/-- Modelled from the spec: the typed frame held by the underlying
`DTrackSDK` object after a successful `receive`; the wrappers read it
through `getNumX()` (list length) and `getX(i)` (list element). -/
structure SdkFrame where
  bodies : List DTrack_Body_Type_d
  flysticks : List DTrack_FlyStick_Type_d
  meatools : List DTrack_MeaTool_Type_d
  hands : List DTrack_Hand_Type_d
  markers : List DTrack_Marker_Type_d

/-- Checked `std::vector::operator[]` access at a C++ `int` index: `none`
models the out-of-bounds read (undefined behaviour). -/
def vecGet {α : Type} (l : List α) (i : ℤ) : Option α :=
  if h : 0 ≤ i ∧ i.toNat < l.length then some (l.get ⟨i.toNat, h.2⟩) else none

/-- Standard body data of the `DTrack` facade (`dtrack_body_type`,
`DTrack.hpp` lines 59-64). -/
structure dtrack_body_type where
  id : ℤ
  quality : CFloat
  loc : Fin 3 → CFloat
  rot : Fin 9 → CFloat

/-- FlyStick data of the `DTrack` facade (`dtrack_flystick_type`). -/
structure dtrack_flystick_type where
  id : ℤ
  quality : CFloat
  num_button : ℤ
  button : Fin 16 → ℤ
  num_joystick : ℤ
  joystick : Fin 8 → CFloat
  loc : Fin 3 → CFloat
  rot : Fin 9 → CFloat

/-- Measurement-tool data of the `DTrack` facade (`dtrack_meatool_type`). -/
structure dtrack_meatool_type where
  id : ℤ
  quality : CFloat
  num_button : ℤ
  button : Fin 1 → ℤ
  loc : Fin 3 → CFloat
  rot : Fin 9 → CFloat

/-- Per-finger sub-record of `dtrack_hand_type` (anonymous struct in
`DTrack.hpp`). -/
structure dtrack_finger_type where
  loc : Fin 3 → CFloat
  rot : Fin 9 → CFloat
  radiustip : CFloat
  lengthphalanx : Fin 3 → CFloat
  anglephalanx : Fin 2 → CFloat

/-- Fingertracking hand data of the `DTrack` facade (`dtrack_hand_type`). -/
structure dtrack_hand_type where
  id : ℤ
  quality : CFloat
  lr : ℤ
  nfinger : ℤ
  loc : Fin 3 → CFloat
  rot : Fin 9 → CFloat
  finger : Fin 5 → dtrack_finger_type

/-- Single-marker data of the `DTrack` facade (`dtrack_marker_type`). -/
structure dtrack_marker_type where
  id : ℤ
  quality : CFloat
  loc : Fin 3 → CFloat

/-- Mutable data members of class `DTrack` (`DTrack.hpp` lines 342-351). -/
structure DTrackState where
  act_num_body : ℤ
  act_body : List dtrack_body_type
  act_num_flystick : ℤ
  act_flystick : List dtrack_flystick_type
  act_num_meatool : ℤ
  act_meatool : List dtrack_meatool_type
  act_num_marker : ℤ
  act_marker : List dtrack_marker_type
  act_num_hand : ℤ
  act_hand : List dtrack_hand_type

/-- Body copy step of `DTrack::receive` (`DTrack.cpp` lines 134-144):
every field of the target record is written from the SDK record, with the
`double → float` cast `d2f`. -/
def convBody (d2f : CDouble → CFloat) (b : DTrack_Body_Type_d) : dtrack_body_type :=
  { id := b.id
    quality := d2f b.quality
    loc := fun j => d2f (b.loc j)
    rot := fun j => d2f (b.rot j) }

/-- FlyStick copy step of `DTrack::receive` (`DTrack.cpp` lines 148-164). -/
def convFlyStick (d2f : CDouble → CFloat) (b : DTrack_FlyStick_Type_d) : dtrack_flystick_type :=
  { id := b.id
    quality := d2f b.quality
    num_button := b.num_button
    button := fun j => b.button j
    num_joystick := b.num_joystick
    joystick := fun j => d2f (b.joystick j)
    loc := fun j => d2f (b.loc j)
    rot := fun j => d2f (b.rot j) }

/-- Measurement-tool copy step of `DTrack::receive` (`DTrack.cpp` lines
168-181); only `button[0]` is copied (`DTRACK_MEATOOL_MAX_BUTTON` is 1). -/
def convMeaTool (d2f : CDouble → CFloat) (b : DTrack_MeaTool_Type_d) : dtrack_meatool_type :=
  { id := b.id
    quality := d2f b.quality
    num_button := b.num_button
    button := fun j => b.button ⟨j.val, by omega⟩
    loc := fun j => d2f (b.loc j)
    rot := fun j => d2f (b.rot j) }

/-- Finger copy step inside the hand loop of `DTrack::receive`. -/
def convFinger (d2f : CDouble → CFloat) (b : DTrack_Finger_Type_d) : dtrack_finger_type :=
  { loc := fun j => d2f (b.loc j)
    rot := fun j => d2f (b.rot j)
    radiustip := d2f b.radiustip
    lengthphalanx := fun j => d2f (b.lengthphalanx j)
    anglephalanx := fun j => d2f (b.anglephalanx j) }

/-- Hand copy step of `DTrack::receive` (`DTrack.cpp` lines 185-209). -/
def convHand (d2f : CDouble → CFloat) (b : DTrack_Hand_Type_d) : dtrack_hand_type :=
  { id := b.id
    quality := d2f b.quality
    lr := b.lr
    nfinger := b.nfinger
    loc := fun j => d2f (b.loc j)
    rot := fun j => d2f (b.rot j)
    finger := fun k => convFinger d2f (b.finger k) }

/-- Marker copy step of `DTrack::receive` (`DTrack.cpp` lines 213-221). -/
def convMarker (d2f : CDouble → CFloat) (b : DTrack_Marker_Type_d) : dtrack_marker_type :=
  { id := b.id
    quality := d2f b.quality
    loc := fun j => d2f (b.loc j) }

/-- `DTrack::receive` (`DTrack.cpp` lines 127-223).  `sdkResult` is the
outcome of the underlying `sdk->receive()` together with the frame the SDK
then exposes: on failure the function returns `false` at once, leaving the
state untouched; on success each collection is resized to the SDK count and
every element is overwritten field by field, which nets to a `List.map` of
the copy step. -/
def DTrack.receive (d2f : CDouble → CFloat) (s : DTrackState)
    (sdkResult : Option SdkFrame) : Bool × DTrackState :=
  match sdkResult with
  | none => (false, s)
  | some f =>
    (true,
      { act_num_body := (f.bodies.length : ℤ)
        act_body := f.bodies.map (convBody d2f)
        act_num_flystick := (f.flysticks.length : ℤ)
        act_flystick := f.flysticks.map (convFlyStick d2f)
        act_num_meatool := (f.meatools.length : ℤ)
        act_meatool := f.meatools.map (convMeaTool d2f)
        act_num_marker := (f.markers.length : ℤ)
        act_marker := f.markers.map (convMarker d2f)
        act_num_hand := (f.hands.length : ℤ)
        act_hand := f.hands.map (convHand d2f) })

/-- The dummy record built by `DTrack::get_body` for an out-of-range index
(`DTrack.cpp` lines 275-279): `memset` to zero, then `id` and `quality` are
set. -/
def DTrack.dummy_body (id : ℤ) : dtrack_body_type :=
  { id := id, quality := -1, loc := fun _ => 0, rot := fun _ => 0 }

/-- `DTrack::get_body` (`DTrack.cpp` lines 269-280).  Note the missing
lower bound: only `id < act_num_body` is checked, so a negative `id`
reaches `act_body[id]`. -/
def DTrack.get_body (s : DTrackState) (id : ℤ) : Option dtrack_body_type :=
  if id < s.act_num_body then vecGet s.act_body id
  else some (DTrack.dummy_body id)

/-- Dummy record of `DTrack::get_flystick`. -/
def DTrack.dummy_flystick (id : ℤ) : dtrack_flystick_type :=
  { id := id, quality := -1, num_button := 0, button := fun _ => 0
    num_joystick := 0, joystick := fun _ => 0, loc := fun _ => 0, rot := fun _ => 0 }

/-- `DTrack::get_flystick` (`DTrack.cpp` lines 302-313). -/
def DTrack.get_flystick (s : DTrackState) (id : ℤ) : Option dtrack_flystick_type :=
  if id < s.act_num_flystick then vecGet s.act_flystick id
  else some (DTrack.dummy_flystick id)

/-- Dummy record of `DTrack::get_meatool`. -/
def DTrack.dummy_meatool (id : ℤ) : dtrack_meatool_type :=
  { id := id, quality := -1, num_button := 0, button := fun _ => 0
    loc := fun _ => 0, rot := fun _ => 0 }

/-- `DTrack::get_meatool` (`DTrack.cpp` lines 335-346). -/
def DTrack.get_meatool (s : DTrackState) (id : ℤ) : Option dtrack_meatool_type :=
  if id < s.act_num_meatool then vecGet s.act_meatool id
  else some (DTrack.dummy_meatool id)

/-- Dummy record of `DTrack::get_hand`. -/
def DTrack.dummy_hand (id : ℤ) : dtrack_hand_type :=
  { id := id, quality := -1, lr := 0, nfinger := 0, loc := fun _ => 0, rot := fun _ => 0
    finger := fun _ =>
      { loc := fun _ => 0, rot := fun _ => 0, radiustip := 0
        lengthphalanx := fun _ => 0, anglephalanx := fun _ => 0 } }

/-- `DTrack::get_hand` (`DTrack.cpp` lines 368-378). -/
def DTrack.get_hand (s : DTrackState) (id : ℤ) : Option dtrack_hand_type :=
  if id < s.act_num_hand then vecGet s.act_hand id
  else some (DTrack.dummy_hand id)

/-- The dummy record built by `DTrack::get_marker` (`DTrack.cpp` lines
405-409): zeroed, `id` set to 0 (not the requested index), `quality` -1. -/
def DTrack.dummy_marker : dtrack_marker_type :=
  { id := 0, quality := -1, loc := fun _ => 0 }

/-- `DTrack::get_marker` (`DTrack.cpp` lines 400-410).  Unlike `get_body`,
both bounds are checked here, and the dummy keeps `id = 0`. -/
def DTrack.get_marker (s : DTrackState) (index : ℤ) : Option dtrack_marker_type :=
  if 0 ≤ index ∧ index < s.act_num_marker then vecGet s.act_marker index
  else some DTrack.dummy_marker

/-- A concrete `DTrack` facade state with empty collections, used to
evaluate the operations on explicit inputs. -/
def DTrack.emptyState : DTrackState :=
  { act_num_body := 0, act_body := []
    act_num_flystick := 0, act_flystick := []
    act_num_meatool := 0, act_meatool := []
    act_num_marker := 0, act_marker := []
    act_num_hand := 0, act_hand := [] }

/-- Single-marker data of the `DTracklib` facade (`dtracklib_marker_type`,
header section of `DTracklib.hpp`). -/
structure dtracklib_marker_type where
  id : ℤ
  quality : CFloat
  loc : Fin 3 → CFloat

/-- Standard body data of the `DTracklib` facade (`dtracklib_body_type`);
`id` is `unsigned long`. -/
structure dtracklib_body_type where
  id : ℕ
  quality : CFloat
  loc : Fin 3 → CFloat
  ang : Fin 3 → CFloat
  rot : Fin 9 → CFloat

/-- Per-finger sub-record of `dtracklib_glove_type` (anonymous struct in
`DTracklib.hpp`). -/
structure dtracklib_finger_type where
  loc : Fin 3 → CFloat
  rot : Fin 9 → CFloat
  radiustip : CFloat
  lengthphalanx : Fin 3 → CFloat
  anglephalanx : Fin 2 → CFloat

/-- Fingertracking hand data of the `DTracklib` facade
(`dtracklib_glove_type`). -/
structure dtracklib_glove_type where
  id : ℤ
  quality : CFloat
  lr : ℤ
  nfinger : ℤ
  loc : Fin 3 → CFloat
  rot : Fin 9 → CFloat
  finger : Fin 5 → dtracklib_finger_type

/-- FlyStick data of the `DTracklib` facade (`dtracklib_flystick_type`);
buttons are binary-coded into the `unsigned long` field `bt`. -/
structure dtracklib_flystick_type where
  id : ℕ
  quality : CFloat
  bt : ℕ
  loc : Fin 3 → CFloat
  ang : Fin 3 → CFloat
  rot : Fin 9 → CFloat

/-- Measurement-tool data of the `DTracklib` facade
(`dtracklib_meatool_type`). -/
structure dtracklib_meatool_type where
  id : ℕ
  quality : CFloat
  bt : ℕ
  loc : Fin 3 → CFloat
  rot : Fin 9 → CFloat

/-- A.R.T. FlyStick data: maximum number of buttons (`DTracklib.hpp`). -/
def DTRACKLIB_FLYSTICK_MAX_BUTTON : ℤ := 16

/-- A.R.T. Fingertracking hand data: maximum number of fingers
(`DTracklib.hpp`). -/
def DTRACKLIB_HAND_MAX_FINGER : ℕ := 5

/-- Mutable data members of class `DTracklib` (`DTracklib.hpp`). -/
structure DTracklibState where
  act_nbodycal : ℤ
  act_nbody : ℤ
  act_body : List dtracklib_body_type
  act_nflystick : ℤ
  act_flystick : List dtracklib_flystick_type
  act_nmeatool : ℤ
  act_meatool : List dtracklib_meatool_type
  act_nmarker : ℤ
  act_marker : List dtracklib_marker_type
  act_nglove : ℤ
  act_glove : List dtracklib_glove_type

/-- The state established by the `DTracklib` constructor (`DTracklib.cpp`
lines 58-70): `act_nbodycal = -1`, every count 0, every vector empty. -/
def DTracklib.initState : DTracklibState :=
  { act_nbodycal := -1
    act_nbody := 0, act_body := []
    act_nflystick := 0, act_flystick := []
    act_nmeatool := 0, act_meatool := []
    act_nmarker := 0, act_marker := []
    act_nglove := 0, act_glove := [] }

/-- C++ conversion of a (possibly negative) `int` to `unsigned long`
(64-bit), as used when `DTracklib::receive` copies SDK `int` ids into
`unsigned long` fields. -/
def intToULong (i : ℤ) : ℕ := (i % (2 : ℤ) ^ 64).toNat

/-- The binary-coded button word computed by `DTracklib::receive`
(`DTracklib.cpp` lines 160-165): for `j < min(num_button, 16)`, a button
value of 1 sets bit `j`. -/
def dtracklibBt (num_button : ℤ) (button : Fin 16 → ℤ) : ℕ :=
  (List.finRange 16).foldl
    (fun bt j =>
      if (j.val : ℤ) < min num_button DTRACKLIB_FLYSTICK_MAX_BUTTON ∧ button j = 1 then
        bt ||| (1 <<< j.val)
      else bt)
    0

/-- Body copy step of `DTracklib::receive` (`DTracklib.cpp` lines
140-149); the unused `ang` components are zeroed. -/
def convLibBody (d2f : CDouble → CFloat) (b : DTrack_Body_Type_d) : dtracklib_body_type :=
  { id := intToULong b.id
    quality := d2f b.quality
    loc := fun j => d2f (b.loc j)
    ang := fun _ => 0
    rot := fun j => d2f (b.rot j) }

/-- FlyStick copy step of `DTracklib::receive` (`DTracklib.cpp` lines
156-171). -/
def convLibFlyStick (d2f : CDouble → CFloat) (b : DTrack_FlyStick_Type_d) : dtracklib_flystick_type :=
  { id := intToULong b.id
    quality := d2f b.quality
    bt := dtracklibBt b.num_button b.button
    loc := fun j => d2f (b.loc j)
    ang := fun _ => 0
    rot := fun j => d2f (b.rot j) }

/-- Measurement-tool copy step of `DTracklib::receive` (`DTracklib.cpp`
lines 178-191). -/
def convLibMeaTool (d2f : CDouble → CFloat) (b : DTrack_MeaTool_Type_d) : dtracklib_meatool_type :=
  { id := intToULong b.id
    quality := d2f b.quality
    bt := dtracklibBt b.num_button b.button
    loc := fun j => d2f (b.loc j)
    rot := fun j => d2f (b.rot j) }

/-- Glove (hand) copy step of `DTracklib::receive` (`DTracklib.cpp` lines
198-219). -/
def convLibGlove (d2f : CDouble → CFloat) (b : DTrack_Hand_Type_d) : dtracklib_glove_type :=
  { id := b.id
    quality := d2f b.quality
    lr := b.lr
    nfinger := b.nfinger
    loc := fun j => d2f (b.loc j)
    rot := fun j => d2f (b.rot j)
    finger := fun k =>
      { loc := fun j => d2f ((b.finger k).loc j)
        rot := fun j => d2f ((b.finger k).rot j)
        radiustip := d2f (b.finger k).radiustip
        lengthphalanx := fun j => d2f ((b.finger k).lengthphalanx j)
        anglephalanx := fun j => d2f ((b.finger k).anglephalanx j) } }

/-- Marker copy step of `DTracklib::receive` (`DTracklib.cpp` lines
226-231). -/
def convLibMarker (d2f : CDouble → CFloat) (b : DTrack_Marker_Type_d) : dtracklib_marker_type :=
  { id := b.id
    quality := d2f b.quality
    loc := fun j => d2f (b.loc j) }

/-- `DTracklib::receive` (`DTracklib.cpp` lines 131-234): on SDK failure
returns `false` with the state untouched; on success overwrites every
collection and count from the SDK frame.  `act_nbodycal` is never
assigned. -/
def DTracklib.receive (d2f : CDouble → CFloat) (s : DTracklibState)
    (sdkResult : Option SdkFrame) : Bool × DTracklibState :=
  match sdkResult with
  | none => (false, s)
  | some f =>
    (true,
      { act_nbodycal := s.act_nbodycal
        act_nbody := (f.bodies.length : ℤ)
        act_body := f.bodies.map (convLibBody d2f)
        act_nflystick := (f.flysticks.length : ℤ)
        act_flystick := f.flysticks.map (convLibFlyStick d2f)
        act_nmeatool := (f.meatools.length : ℤ)
        act_meatool := f.meatools.map (convLibMeaTool d2f)
        act_nmarker := (f.markers.length : ℤ)
        act_marker := f.markers.map (convLibMarker d2f)
        act_nglove := (f.hands.length : ℤ)
        act_glove := f.hands.map (convLibGlove d2f) })

/-- `DTracklib::get_nbodycal` (`DTracklib.cpp` lines 266-269). -/
def DTracklib.get_nbodycal (s : DTracklibState) : ℤ :=
  s.act_nbodycal

/-- The all-zero record returned by `DTracklib::get_body` for an
out-of-range index (`DTracklib.cpp` lines 293-298): plain `memset`, so
`quality` is 0 (not -1) and `id` is 0 (not the requested index). -/
def DTracklib.zero_body : dtracklib_body_type :=
  { id := 0, quality := 0, loc := fun _ => 0, ang := fun _ => 0, rot := fun _ => 0 }

/-- `DTracklib::get_body` (`DTracklib.cpp` lines 291-300). -/
def DTracklib.get_body (s : DTracklibState) (id : ℤ) : Option dtracklib_body_type :=
  if id < 0 ∨ s.act_nbody ≤ id then some DTracklib.zero_body
  else vecGet s.act_body id

/-- All-zero record of `DTracklib::get_flystick`. -/
def DTracklib.zero_flystick : dtracklib_flystick_type :=
  { id := 0, quality := 0, bt := 0, loc := fun _ => 0, ang := fun _ => 0, rot := fun _ => 0 }

/-- `DTracklib::get_flystick` (`DTracklib.cpp` lines 322-331). -/
def DTracklib.get_flystick (s : DTracklibState) (id : ℤ) : Option dtracklib_flystick_type :=
  if id < 0 ∨ s.act_nflystick ≤ id then some DTracklib.zero_flystick
  else vecGet s.act_flystick id

/-- All-zero record of `DTracklib::get_meatool`. -/
def DTracklib.zero_meatool : dtracklib_meatool_type :=
  { id := 0, quality := 0, bt := 0, loc := fun _ => 0, rot := fun _ => 0 }

/-- `DTracklib::get_meatool` (`DTracklib.cpp` lines 353-362). -/
def DTracklib.get_meatool (s : DTracklibState) (id : ℤ) : Option dtracklib_meatool_type :=
  if id < 0 ∨ s.act_nmeatool ≤ id then some DTracklib.zero_meatool
  else vecGet s.act_meatool id

/-- All-zero record of `DTracklib::get_glove`. -/
def DTracklib.zero_glove : dtracklib_glove_type :=
  { id := 0, quality := 0, lr := 0, nfinger := 0, loc := fun _ => 0, rot := fun _ => 0
    finger := fun _ =>
      { loc := fun _ => 0, rot := fun _ => 0, radiustip := 0
        lengthphalanx := fun _ => 0, anglephalanx := fun _ => 0 } }

/-- `DTracklib::get_glove` (`DTracklib.cpp` lines 384-393). -/
def DTracklib.get_glove (s : DTracklibState) (id : ℤ) : Option dtracklib_glove_type :=
  if id < 0 ∨ s.act_nglove ≤ id then some DTracklib.zero_glove
  else vecGet s.act_glove id

/-- All-zero record of `DTracklib::get_marker`. -/
def DTracklib.zero_marker : dtracklib_marker_type :=
  { id := 0, quality := 0, loc := fun _ => 0 }

/-- `DTracklib::get_marker` (`DTracklib.cpp` lines 415-423). -/
def DTracklib.get_marker (s : DTracklibState) (index : ℤ) : Option dtracklib_marker_type :=
  if index < 0 ∨ s.act_nmarker ≤ index then some DTracklib.zero_marker
  else vecGet s.act_marker index

/-- DTrack remote command code (`DTracklib.hpp`). -/
def DTRACKLIB_CMD_CAMERAS_OFF : ℕ := 0x1000

/-- DTrack remote command code (`DTracklib.hpp`). -/
def DTRACKLIB_CMD_CAMERAS_ON : ℕ := 0x1001

/-- DTrack remote command code (`DTracklib.hpp`). -/
def DTRACKLIB_CMD_CAMERAS_AND_CALC_ON : ℕ := 0x1003

/-- DTrack remote command code (`DTracklib.hpp`). -/
def DTRACKLIB_CMD_SEND_DATA : ℕ := 0x3100

/-- DTrack remote command code (`DTracklib.hpp`). -/
def DTRACKLIB_CMD_STOP_DATA : ℕ := 0x3200

/-- DTrack remote command code (`DTracklib.hpp`). -/
def DTRACKLIB_CMD_SEND_N_DATA : ℕ := 0x3300

/-- The six command codes recognized by the `switch` in
`DTracklib::send`. -/
def DTracklib.recognizedCmds : List ℕ :=
  [DTRACKLIB_CMD_CAMERAS_OFF, DTRACKLIB_CMD_CAMERAS_ON, DTRACKLIB_CMD_CAMERAS_AND_CALC_ON,
   DTRACKLIB_CMD_SEND_DATA, DTRACKLIB_CMD_STOP_DATA, DTRACKLIB_CMD_SEND_N_DATA]

/-- `DTracklib::send` (`DTracklib.cpp` lines 434-464).  `portValid` is
`sdk->isLocalDataPortValid()` and `udpResult` is the (discarded) boolean
result of `sdk->sendCommand`.  The second component is the command string
handed to `sdk->sendCommand`, `none` when nothing is sent. -/
def DTracklib.send (portValid : Bool) (udpResult : Bool) (cmd : ℕ) (val : ℤ) :
    Bool × Option String :=
  if portValid = false then (false, none)
  else if cmd = DTRACKLIB_CMD_CAMERAS_OFF then (true, some "dtrack 10 0")
  else if cmd = DTRACKLIB_CMD_CAMERAS_ON then (true, some "dtrack 10 1")
  else if cmd = DTRACKLIB_CMD_CAMERAS_AND_CALC_ON then (true, some "dtrack 10 3")
  else if cmd = DTRACKLIB_CMD_SEND_DATA then (true, some "dtrack 31")
  else if cmd = DTRACKLIB_CMD_STOP_DATA then (true, some "dtrack 32")
  else if cmd = DTRACKLIB_CMD_SEND_N_DATA then (true, some ("dtrack 33 " ++ toString val))
  else (false, none)

/-- A.R.T. FlyStick data: maximum number of buttons (`DTrack2.hpp`). -/
def DTRACK2_FLYSTICK_MAX_BUTTON : ℕ := 16

/-- A.R.T. FlyStick data: maximum number of joystick values
(`DTrack2.hpp`). -/
def DTRACK2_FLYSTICK_MAX_JOYSTICK : ℕ := 8

/-- Measurement tool data: maximum number of buttons (`DTrack2.hpp`). -/
def DTRACK2_MEATOOL_MAX_BUTTON : ℕ := 1

/-- A.R.T. Fingertracking hand data: maximum number of fingers
(`DTrack2.hpp`). -/
def DTRACK2_HAND_MAX_FINGER : ℕ := 5

/-- Standard body data of the `DTrack2` facade (`dtrack2_body_type`,
typedef in the `DTrack2.hpp` header). -/
structure dtrack2_body_type where
  id : ℤ
  quality : CFloat
  loc : Fin 3 → CFloat
  rot : Fin 9 → CFloat

/-- FlyStick data of the `DTrack2` facade (`dtrack2_flystick_type`,
`DTrack2.hpp`). -/
structure dtrack2_flystick_type where
  id : ℤ
  quality : CFloat
  num_button : ℤ
  button : Fin 16 → ℤ
  num_joystick : ℤ
  joystick : Fin 8 → CFloat
  loc : Fin 3 → CFloat
  rot : Fin 9 → CFloat

/-- Measurement-tool data of the `DTrack2` facade
(`dtrack2_meatool_type`, `DTrack2.hpp`). -/
structure dtrack2_meatool_type where
  id : ℤ
  quality : CFloat
  num_button : ℤ
  button : Fin 1 → ℤ
  loc : Fin 3 → CFloat
  rot : Fin 9 → CFloat

/-- Per-finger sub-record of `dtrack2_hand_type` (anonymous struct in
`DTrack2.hpp`). -/
structure dtrack2_finger_type where
  loc : Fin 3 → CFloat
  rot : Fin 9 → CFloat
  radiustip : CFloat
  lengthphalanx : Fin 3 → CFloat
  anglephalanx : Fin 2 → CFloat

/-- Fingertracking hand data of the `DTrack2` facade
(`dtrack2_hand_type`, `DTrack2.hpp`). -/
structure dtrack2_hand_type where
  id : ℤ
  quality : CFloat
  lr : ℤ
  nfinger : ℤ
  loc : Fin 3 → CFloat
  rot : Fin 9 → CFloat
  finger : Fin 5 → dtrack2_finger_type

/-- Single-marker data of the `DTrack2` facade (`dtrack2_marker_type`,
`DTrack2.hpp`). -/
structure dtrack2_marker_type where
  id : ℤ
  quality : CFloat
  loc : Fin 3 → CFloat

/-- Mutable tracking-data members of class `DTrack2` (private section of
`DTrack2.hpp`). -/
structure DTrack2State where
  act_num_body : ℤ
  act_body : List dtrack2_body_type
  act_num_flystick : ℤ
  act_flystick : List dtrack2_flystick_type
  act_num_meatool : ℤ
  act_meatool : List dtrack2_meatool_type
  act_num_marker : ℤ
  act_marker : List dtrack2_marker_type
  act_num_hand : ℤ
  act_hand : List dtrack2_hand_type

/-- Body copy step of `DTrack2::receive` (`DTrack2.cpp` lines 661-671). -/
def conv2Body (d2f : CDouble → CFloat) (b : DTrack_Body_Type_d) : dtrack2_body_type :=
  { id := b.id
    quality := d2f b.quality
    loc := fun j => d2f (b.loc j)
    rot := fun j => d2f (b.rot j) }

/-- FlyStick copy step of `DTrack2::receive` (`DTrack2.cpp` lines
675-691). -/
def conv2FlyStick (d2f : CDouble → CFloat) (b : DTrack_FlyStick_Type_d) : dtrack2_flystick_type :=
  { id := b.id
    quality := d2f b.quality
    num_button := b.num_button
    button := fun j => b.button j
    num_joystick := b.num_joystick
    joystick := fun j => d2f (b.joystick j)
    loc := fun j => d2f (b.loc j)
    rot := fun j => d2f (b.rot j) }

/-- Measurement-tool copy step of `DTrack2::receive` (`DTrack2.cpp` lines
695-708); only `button[0]` is copied (`DTRACK2_MEATOOL_MAX_BUTTON` is
1). -/
def conv2MeaTool (d2f : CDouble → CFloat) (b : DTrack_MeaTool_Type_d) : dtrack2_meatool_type :=
  { id := b.id
    quality := d2f b.quality
    num_button := b.num_button
    button := fun j => b.button ⟨j.val, by omega⟩
    loc := fun j => d2f (b.loc j)
    rot := fun j => d2f (b.rot j) }

/-- Hand copy step of `DTrack2::receive` (`DTrack2.cpp` lines 712-736). -/
def conv2Hand (d2f : CDouble → CFloat) (b : DTrack_Hand_Type_d) : dtrack2_hand_type :=
  { id := b.id
    quality := d2f b.quality
    lr := b.lr
    nfinger := b.nfinger
    loc := fun j => d2f (b.loc j)
    rot := fun j => d2f (b.rot j)
    finger := fun k =>
      { loc := fun j => d2f ((b.finger k).loc j)
        rot := fun j => d2f ((b.finger k).rot j)
        radiustip := d2f (b.finger k).radiustip
        lengthphalanx := fun j => d2f ((b.finger k).lengthphalanx j)
        anglephalanx := fun j => d2f ((b.finger k).anglephalanx j) } }

/-- Marker copy step of `DTrack2::receive` (`DTrack2.cpp` lines
740-747). -/
def conv2Marker (d2f : CDouble → CFloat) (b : DTrack_Marker_Type_d) : dtrack2_marker_type :=
  { id := b.id
    quality := d2f b.quality
    loc := fun j => d2f (b.loc j) }

/-- `DTrack2::receive` (`DTrack2.cpp` lines 652-750): first checks
`sdk->isLocalDataPortValid()` (the `portValid` argument), then the SDK
receive; on either failure it returns `false` with the state untouched,
otherwise each collection is resized to the SDK count and every element is
overwritten field by field, which nets to a `List.map` of the copy step. -/
def DTrack2.receive (d2f : CDouble → CFloat) (portValid : Bool) (s : DTrack2State)
    (sdkResult : Option SdkFrame) : Bool × DTrack2State :=
  if portValid = false then (false, s)
  else
    match sdkResult with
    | none => (false, s)
    | some f =>
      (true,
        { act_num_body := (f.bodies.length : ℤ)
          act_body := f.bodies.map (conv2Body d2f)
          act_num_flystick := (f.flysticks.length : ℤ)
          act_flystick := f.flysticks.map (conv2FlyStick d2f)
          act_num_meatool := (f.meatools.length : ℤ)
          act_meatool := f.meatools.map (conv2MeaTool d2f)
          act_num_marker := (f.markers.length : ℤ)
          act_marker := f.markers.map (conv2Marker d2f)
          act_num_hand := (f.hands.length : ℤ)
          act_hand := f.hands.map (conv2Hand d2f) })

/-- Dummy record of `DTrack2::get_body` (`DTrack2.cpp` lines 801-805). -/
def DTrack2.dummy_body (id : ℤ) : dtrack2_body_type :=
  { id := id, quality := -1, loc := fun _ => 0, rot := fun _ => 0 }

/-- `DTrack2::get_body` (`DTrack2.cpp` lines 796-806); like
`DTrack::get_body` it lacks the lower-bound check. -/
def DTrack2.get_body (s : DTrack2State) (id : ℤ) : Option dtrack2_body_type :=
  if id < s.act_num_body then vecGet s.act_body id
  else some (DTrack2.dummy_body id)

/-- Dummy record of `DTrack2::get_flystick` (`DTrack2.cpp` lines
833-837). -/
def DTrack2.dummy_flystick (id : ℤ) : dtrack2_flystick_type :=
  { id := id, quality := -1, num_button := 0, button := fun _ => 0
    num_joystick := 0, joystick := fun _ => 0, loc := fun _ => 0, rot := fun _ => 0 }

/-- `DTrack2::get_flystick` (`DTrack2.cpp` lines 828-838); only the upper
bound is checked. -/
def DTrack2.get_flystick (s : DTrack2State) (id : ℤ) : Option dtrack2_flystick_type :=
  if id < s.act_num_flystick then vecGet s.act_flystick id
  else some (DTrack2.dummy_flystick id)

/-- Dummy record of `DTrack2::get_meatool` (`DTrack2.cpp` lines
865-869). -/
def DTrack2.dummy_meatool (id : ℤ) : dtrack2_meatool_type :=
  { id := id, quality := -1, num_button := 0, button := fun _ => 0
    loc := fun _ => 0, rot := fun _ => 0 }

/-- `DTrack2::get_meatool` (`DTrack2.cpp` lines 860-870); only the upper
bound is checked. -/
def DTrack2.get_meatool (s : DTrack2State) (id : ℤ) : Option dtrack2_meatool_type :=
  if id < s.act_num_meatool then vecGet s.act_meatool id
  else some (DTrack2.dummy_meatool id)

/-- Dummy record of `DTrack2::get_hand` (`DTrack2.cpp` lines 897-901). -/
def DTrack2.dummy_hand (id : ℤ) : dtrack2_hand_type :=
  { id := id, quality := -1, lr := 0, nfinger := 0, loc := fun _ => 0, rot := fun _ => 0
    finger := fun _ =>
      { loc := fun _ => 0, rot := fun _ => 0, radiustip := 0
        lengthphalanx := fun _ => 0, anglephalanx := fun _ => 0 } }

/-- `DTrack2::get_hand` (`DTrack2.cpp` lines 892-902); only the upper
bound is checked. -/
def DTrack2.get_hand (s : DTrack2State) (id : ℤ) : Option dtrack2_hand_type :=
  if id < s.act_num_hand then vecGet s.act_hand id
  else some (DTrack2.dummy_hand id)

/-- Dummy record of `DTrack2::get_marker` (`DTrack2.cpp` lines 929-932):
zeroed, `id` set to 0, `quality` -1. -/
def DTrack2.dummy_marker : dtrack2_marker_type :=
  { id := 0, quality := -1, loc := fun _ => 0 }

/-- `DTrack2::get_marker` (`DTrack2.cpp` lines 924-934). -/
def DTrack2.get_marker (s : DTrack2State) (index : ℤ) : Option dtrack2_marker_type :=
  if 0 ≤ index ∧ index < s.act_num_marker then vecGet s.act_marker index
  else some DTrack2.dummy_marker

/-- A concrete `DTrack2` facade state with empty collections. -/
def DTrack2.emptyState : DTrack2State :=
  { act_num_body := 0, act_body := []
    act_num_flystick := 0, act_flystick := []
    act_num_meatool := 0, act_meatool := []
    act_num_marker := 0, act_marker := []
    act_num_hand := 0, act_hand := [] }

/-- `DTrack2::send_command` (`DTrack2.cpp` lines 996-999): prepends
`"dtrack2 "` and reports whether the exchange result is 1.  `exchange`
is the oracle for `sdk->sendDTrack2Command`. -/
def DTrack2.send_command (exchange : String → ℤ) (command : String) : Bool :=
  1 == exchange ("dtrack2 " ++ command)

/-- Single-string overload of `DTrack2::set_parameter` (`DTrack2.cpp`
lines 957-960). -/
def DTrack2.set_parameter_total (exchange : String → ℤ) (parameter : String) : Bool :=
  DTrack2.send_command exchange ("set " ++ parameter)

/-- Three-string overload of `DTrack2::set_parameter` (`DTrack2.cpp`
lines 945-948). -/
def DTrack2.set_parameter (exchange : String → ℤ)
    (category name value : String) : Bool :=
  DTrack2.set_parameter_total exchange (category ++ " " ++ name ++ " " ++ value)

/-- Command-channel error registers of the underlying SDK object, read by
`DTrack2::get_lasterror` through `sdk->getLastDTrackError()` and
`sdk->getLastDTrackErrorDescription()`. -/
structure DTrack2ServerState where
  lastDTrackError : ℤ
  lastDTrackErrorDescription : String

/-- `DTrack2::get_lasterror(int&)` (`DTrack2.cpp` lines 1008-1012): the
out-parameter `errorcode` is overwritten with the last device-side error
code; the result is the new pair (out-parameter value, return value). -/
def DTrack2.get_lasterror_code (sv : DTrack2ServerState) (errorcode : ℤ) : ℤ × Bool :=
  let e := sv.lastDTrackError
  (e, decide (0 ≠ e))

/-- `DTrack2::get_lasterror(std::string&)` (`DTrack2.cpp` lines
1021-1027): when the code is 0 the out-parameter keeps its old value and
the call returns `false`; otherwise the description is written and the
call returns `true`. -/
def DTrack2.get_lasterror_string (sv : DTrack2ServerState) (errorstring : String) :
    String × Bool :=
  if 0 = sv.lastDTrackError then (errorstring, false)
  else (sv.lastDTrackErrorDescription, true)

/-- States of a `DTracklib` object reachable from the constructor by any
sequence of `receive` calls (no other member function assigns the
tracking-data members). -/
inductive DTracklib.Reachable : DTracklibState → Prop where
  | init : DTracklib.Reachable DTracklib.initState
  | recv (d2f : CDouble → CFloat) (s : DTracklibState) (r : Option SdkFrame) :
      DTracklib.Reachable s → DTracklib.Reachable (DTracklib.receive d2f s r).2

/-- In-bounds evaluation of the checked vector access. -/
theorem vecGet_eq_get {α : Type} (l : List α) (i : ℤ) (h0 : 0 ≤ i)
    (h : i.toNat < l.length) : vecGet l i = some (l.get ⟨i.toNat, h⟩) := by
  rw [vecGet, dif_pos ⟨h0, h⟩]

/-- C1: if the underlying SDK receive fails, `DTrack::receive`,
`DTracklib::receive` and `DTrack2::receive` return `false` and leave every
stored entity collection and count field exactly as it was — the last good
frame remains readable (for `DTrack2` also when the data port is
invalid). -/
theorem claim1_receive_failure_retains_frame
    (d2f : CDouble → CFloat) (s1 : DTrackState) (s2 : DTracklibState)
    (s3 : DTrack2State) (pv : Bool) (r : Option SdkFrame) :
    DTrack.receive d2f s1 none = (false, s1) ∧
    DTracklib.receive d2f s2 none = (false, s2) ∧
    DTrack2.receive d2f pv s3 none = (false, s3) ∧
    DTrack2.receive d2f false s3 r = (false, s3) := by
  refine ⟨rfl, rfl, ?_, rfl⟩
  cases pv <;> rfl

/-- C3 fails on the code: `DTrack::get_body` and `DTrack2::get_body` check
only `id < act_num_body`, so at the negative index -1 the call reaches
`act_body[-1]`, an out-of-bounds `std::vector` read (modelled as `none`),
instead of the documented dummy-record fallback. -/
theorem claim3_get_body_negative_index_oob :
    DTrack.get_body DTrack.emptyState (-1) = none ∧
    DTrack2.get_body DTrack2.emptyState (-1) = none := by
  constructor <;> rfl

/-- C4: for any index at or above the stored body count, `DTrack::get_body`
(and likewise `DTrack2::get_body`) returns the dummy record with quality
-1, id equal to the requested index, and zeroed location and rotation. -/
theorem claim4_get_body_dummy_above_count
    (s : DTrackState) (s2 : DTrack2State) (i : ℤ)
    (h : s.act_num_body ≤ i) (h2 : s2.act_num_body ≤ i) :
    DTrack.get_body s i = some (DTrack.dummy_body i) ∧
    DTrack2.get_body s2 i = some (DTrack2.dummy_body i) ∧
    (DTrack.dummy_body i).quality = -1 ∧ (DTrack.dummy_body i).id = i ∧
    (∀ j, (DTrack.dummy_body i).loc j = 0) ∧ (∀ j, (DTrack.dummy_body i).rot j = 0) ∧
    (DTrack2.dummy_body i).quality = -1 ∧ (DTrack2.dummy_body i).id = i ∧
    (∀ j, (DTrack2.dummy_body i).loc j = 0) ∧ (∀ j, (DTrack2.dummy_body i).rot j = 0) := by
  refine ⟨?_, ?_, rfl, rfl, fun _ => rfl, fun _ => rfl, rfl, rfl, fun _ => rfl, fun _ => rfl⟩
  · rw [DTrack.get_body, if_neg (not_lt.mpr h)]
  · rw [DTrack2.get_body, if_neg (not_lt.mpr h2)]

/-- Witness for C4 at the empty states and index 2. -/
theorem claim4_witness :
    DTrack.emptyState.act_num_body ≤ 2 ∧
    DTrack.get_body DTrack.emptyState 2 = some (DTrack.dummy_body 2) ∧
    DTrack2.get_body DTrack2.emptyState 2 = some (DTrack2.dummy_body 2) := by
  have h := claim4_get_body_dummy_above_count DTrack.emptyState DTrack2.emptyState 2
    (by decide) (by decide)
  exact ⟨by decide, h.1, h.2.1⟩

/-- C9: in every reachable state of a `DTracklib` object `get_nbodycal`
returns -1: the constructor sets `act_nbodycal` to -1 and no later
operation, `receive` included, ever assigns it. -/
theorem claim9_nbodycal_invariant (s : DTracklibState)
    (h : DTracklib.Reachable s) : DTracklib.get_nbodycal s = -1 := by
  induction h with
  | init => rfl
  | recv d2f s' r _ ih =>
    cases r with
    | none => exact ih
    | some f => exact ih

/-- Witness for C9 at the constructor state. -/
theorem claim9_witness :
    DTracklib.Reachable DTracklib.initState ∧
    DTracklib.get_nbodycal DTracklib.initState = -1 :=
  ⟨DTracklib.Reachable.init,
   claim9_nbodycal_invariant DTracklib.initState DTracklib.Reachable.init⟩

/-- C2 fails on the code: at the out-of-range index 5 (constructor state,
body count 0), `DTracklib::get_body` returns the plain `memset`-zero
record, whose quality is 0 (not -1) and whose id is 0 (not the requested
index); likewise the `DTrack::get_marker` dummy carries id 0, not the
requested index. -/
theorem claim2_counterexample :
    DTracklib.get_body DTracklib.initState 5 = some DTracklib.zero_body ∧
    DTracklib.zero_body.quality = 0 ∧ DTracklib.zero_body.id = 0 ∧
    ¬(DTracklib.zero_body.quality = -1 ∧ DTracklib.zero_body.id = 5) ∧
    DTrack.get_marker DTrack.emptyState 5 = some DTrack.dummy_marker ∧
    DTrack.dummy_marker.id = 0 ∧ ¬ DTrack.dummy_marker.id = 5 := by
  refine ⟨rfl, rfl, rfl, ?_, rfl, rfl, by decide⟩
  rintro ⟨hq, -⟩
  norm_num [DTracklib.zero_body] at hq

/-- C2 amended: the body, flystick, measurement-tool and hand accessors
of `DTrack` and `DTrack2` return the i-th stored element for an in-range
index and, at or above the count, a dummy with quality -1 and id equal to
the requested index (no lower-bound check); the marker accessors of
`DTrack` and `DTrack2` check both bounds but their dummy carries id 0;
every `DTracklib` accessor checks both bounds and returns the all-zero
record (quality 0, id 0). -/
theorem claim2_amended_accessor_fallback
    (s : DTrackState) (s2 : DTrack2State) (sl : DTracklibState) (i : ℤ) :
    (∀ h0 : 0 ≤ i, ∀ hb : i.toNat < s.act_body.length, i < s.act_num_body →
        DTrack.get_body s i = some (s.act_body.get ⟨i.toNat, hb⟩)) ∧
    (s.act_num_body ≤ i →
        DTrack.get_body s i = some (DTrack.dummy_body i) ∧
        (DTrack.dummy_body i).quality = -1 ∧ (DTrack.dummy_body i).id = i) ∧
    (∀ h0 : 0 ≤ i, ∀ hb : i.toNat < s.act_flystick.length, i < s.act_num_flystick →
        DTrack.get_flystick s i = some (s.act_flystick.get ⟨i.toNat, hb⟩)) ∧
    (s.act_num_flystick ≤ i →
        DTrack.get_flystick s i = some (DTrack.dummy_flystick i) ∧
        (DTrack.dummy_flystick i).quality = -1 ∧ (DTrack.dummy_flystick i).id = i) ∧
    (∀ h0 : 0 ≤ i, ∀ hb : i.toNat < s.act_meatool.length, i < s.act_num_meatool →
        DTrack.get_meatool s i = some (s.act_meatool.get ⟨i.toNat, hb⟩)) ∧
    (s.act_num_meatool ≤ i →
        DTrack.get_meatool s i = some (DTrack.dummy_meatool i) ∧
        (DTrack.dummy_meatool i).quality = -1 ∧ (DTrack.dummy_meatool i).id = i) ∧
    (∀ h0 : 0 ≤ i, ∀ hb : i.toNat < s.act_hand.length, i < s.act_num_hand →
        DTrack.get_hand s i = some (s.act_hand.get ⟨i.toNat, hb⟩)) ∧
    (s.act_num_hand ≤ i →
        DTrack.get_hand s i = some (DTrack.dummy_hand i) ∧
        (DTrack.dummy_hand i).quality = -1 ∧ (DTrack.dummy_hand i).id = i) ∧
    (∀ h0 : 0 ≤ i, ∀ hm : i.toNat < s.act_marker.length, i < s.act_num_marker →
        DTrack.get_marker s i = some (s.act_marker.get ⟨i.toNat, hm⟩)) ∧
    (¬(0 ≤ i ∧ i < s.act_num_marker) →
        DTrack.get_marker s i = some DTrack.dummy_marker) ∧
    (DTrack.dummy_marker.quality = -1 ∧ DTrack.dummy_marker.id = 0) ∧
    (∀ h0 : 0 ≤ i, ∀ hb : i.toNat < s2.act_body.length, i < s2.act_num_body →
        DTrack2.get_body s2 i = some (s2.act_body.get ⟨i.toNat, hb⟩)) ∧
    (s2.act_num_body ≤ i →
        DTrack2.get_body s2 i = some (DTrack2.dummy_body i) ∧
        (DTrack2.dummy_body i).quality = -1 ∧ (DTrack2.dummy_body i).id = i) ∧
    (∀ h0 : 0 ≤ i, ∀ hb : i.toNat < s2.act_flystick.length, i < s2.act_num_flystick →
        DTrack2.get_flystick s2 i = some (s2.act_flystick.get ⟨i.toNat, hb⟩)) ∧
    (s2.act_num_flystick ≤ i →
        DTrack2.get_flystick s2 i = some (DTrack2.dummy_flystick i) ∧
        (DTrack2.dummy_flystick i).quality = -1 ∧ (DTrack2.dummy_flystick i).id = i) ∧
    (∀ h0 : 0 ≤ i, ∀ hb : i.toNat < s2.act_meatool.length, i < s2.act_num_meatool →
        DTrack2.get_meatool s2 i = some (s2.act_meatool.get ⟨i.toNat, hb⟩)) ∧
    (s2.act_num_meatool ≤ i →
        DTrack2.get_meatool s2 i = some (DTrack2.dummy_meatool i) ∧
        (DTrack2.dummy_meatool i).quality = -1 ∧ (DTrack2.dummy_meatool i).id = i) ∧
    (∀ h0 : 0 ≤ i, ∀ hb : i.toNat < s2.act_hand.length, i < s2.act_num_hand →
        DTrack2.get_hand s2 i = some (s2.act_hand.get ⟨i.toNat, hb⟩)) ∧
    (s2.act_num_hand ≤ i →
        DTrack2.get_hand s2 i = some (DTrack2.dummy_hand i) ∧
        (DTrack2.dummy_hand i).quality = -1 ∧ (DTrack2.dummy_hand i).id = i) ∧
    (∀ h0 : 0 ≤ i, ∀ hm : i.toNat < s2.act_marker.length, i < s2.act_num_marker →
        DTrack2.get_marker s2 i = some (s2.act_marker.get ⟨i.toNat, hm⟩)) ∧
    (¬(0 ≤ i ∧ i < s2.act_num_marker) →
        DTrack2.get_marker s2 i = some DTrack2.dummy_marker) ∧
    (DTrack2.dummy_marker.quality = -1 ∧ DTrack2.dummy_marker.id = 0) ∧
    (∀ h0 : 0 ≤ i, ∀ hb : i.toNat < sl.act_body.length, i < sl.act_nbody →
        DTracklib.get_body sl i = some (sl.act_body.get ⟨i.toNat, hb⟩)) ∧
    ((i < 0 ∨ sl.act_nbody ≤ i) →
        DTracklib.get_body sl i = some DTracklib.zero_body) ∧
    (DTracklib.zero_body.quality = 0 ∧ DTracklib.zero_body.id = 0) ∧
    (∀ h0 : 0 ≤ i, ∀ hb : i.toNat < sl.act_flystick.length, i < sl.act_nflystick →
        DTracklib.get_flystick sl i = some (sl.act_flystick.get ⟨i.toNat, hb⟩)) ∧
    ((i < 0 ∨ sl.act_nflystick ≤ i) →
        DTracklib.get_flystick sl i = some DTracklib.zero_flystick) ∧
    (DTracklib.zero_flystick.quality = 0 ∧ DTracklib.zero_flystick.id = 0) ∧
    (∀ h0 : 0 ≤ i, ∀ hb : i.toNat < sl.act_meatool.length, i < sl.act_nmeatool →
        DTracklib.get_meatool sl i = some (sl.act_meatool.get ⟨i.toNat, hb⟩)) ∧
    ((i < 0 ∨ sl.act_nmeatool ≤ i) →
        DTracklib.get_meatool sl i = some DTracklib.zero_meatool) ∧
    (DTracklib.zero_meatool.quality = 0 ∧ DTracklib.zero_meatool.id = 0) ∧
    (∀ h0 : 0 ≤ i, ∀ hb : i.toNat < sl.act_glove.length, i < sl.act_nglove →
        DTracklib.get_glove sl i = some (sl.act_glove.get ⟨i.toNat, hb⟩)) ∧
    ((i < 0 ∨ sl.act_nglove ≤ i) →
        DTracklib.get_glove sl i = some DTracklib.zero_glove) ∧
    (DTracklib.zero_glove.quality = 0 ∧ DTracklib.zero_glove.id = 0) ∧
    (∀ h0 : 0 ≤ i, ∀ hm : i.toNat < sl.act_marker.length, i < sl.act_nmarker →
        DTracklib.get_marker sl i = some (sl.act_marker.get ⟨i.toNat, hm⟩)) ∧
    ((i < 0 ∨ sl.act_nmarker ≤ i) →
        DTracklib.get_marker sl i = some DTracklib.zero_marker) ∧
    (DTracklib.zero_marker.quality = 0 ∧ DTracklib.zero_marker.id = 0) := by
  refine ⟨?_, ?_, ?_, ?_, ?_, ?_, ?_, ?_, ?_, ?_, ⟨rfl, rfl⟩,
    ?_, ?_, ?_, ?_, ?_, ?_, ?_, ?_, ?_, ?_, ⟨rfl, rfl⟩,
    ?_, ?_, ⟨rfl, rfl⟩, ?_, ?_, ⟨rfl, rfl⟩, ?_, ?_, ⟨rfl, rfl⟩,
    ?_, ?_, ⟨rfl, rfl⟩, ?_, ?_, ⟨rfl, rfl⟩⟩
  · intro h0 hb hlt
    rw [DTrack.get_body, if_pos hlt, vecGet_eq_get s.act_body i h0 hb]
  · intro h
    exact ⟨by rw [DTrack.get_body, if_neg (not_lt.mpr h)], rfl, rfl⟩
  · intro h0 hb hlt
    rw [DTrack.get_flystick, if_pos hlt, vecGet_eq_get s.act_flystick i h0 hb]
  · intro h
    exact ⟨by rw [DTrack.get_flystick, if_neg (not_lt.mpr h)], rfl, rfl⟩
  · intro h0 hb hlt
    rw [DTrack.get_meatool, if_pos hlt, vecGet_eq_get s.act_meatool i h0 hb]
  · intro h
    exact ⟨by rw [DTrack.get_meatool, if_neg (not_lt.mpr h)], rfl, rfl⟩
  · intro h0 hb hlt
    rw [DTrack.get_hand, if_pos hlt, vecGet_eq_get s.act_hand i h0 hb]
  · intro h
    exact ⟨by rw [DTrack.get_hand, if_neg (not_lt.mpr h)], rfl, rfl⟩
  · intro h0 hm hlt
    rw [DTrack.get_marker, if_pos ⟨h0, hlt⟩, vecGet_eq_get s.act_marker i h0 hm]
  · intro h
    rw [DTrack.get_marker, if_neg h]
  · intro h0 hb hlt
    rw [DTrack2.get_body, if_pos hlt, vecGet_eq_get s2.act_body i h0 hb]
  · intro h
    exact ⟨by rw [DTrack2.get_body, if_neg (not_lt.mpr h)], rfl, rfl⟩
  · intro h0 hb hlt
    rw [DTrack2.get_flystick, if_pos hlt, vecGet_eq_get s2.act_flystick i h0 hb]
  · intro h
    exact ⟨by rw [DTrack2.get_flystick, if_neg (not_lt.mpr h)], rfl, rfl⟩
  · intro h0 hb hlt
    rw [DTrack2.get_meatool, if_pos hlt, vecGet_eq_get s2.act_meatool i h0 hb]
  · intro h
    exact ⟨by rw [DTrack2.get_meatool, if_neg (not_lt.mpr h)], rfl, rfl⟩
  · intro h0 hb hlt
    rw [DTrack2.get_hand, if_pos hlt, vecGet_eq_get s2.act_hand i h0 hb]
  · intro h
    exact ⟨by rw [DTrack2.get_hand, if_neg (not_lt.mpr h)], rfl, rfl⟩
  · intro h0 hm hlt
    rw [DTrack2.get_marker, if_pos ⟨h0, hlt⟩, vecGet_eq_get s2.act_marker i h0 hm]
  · intro h
    rw [DTrack2.get_marker, if_neg h]
  · intro h0 hb hlt
    rw [DTracklib.get_body, if_neg (not_or.mpr ⟨not_lt.mpr h0, not_le.mpr hlt⟩),
      vecGet_eq_get sl.act_body i h0 hb]
  · intro h
    rw [DTracklib.get_body, if_pos h]
  · intro h0 hb hlt
    rw [DTracklib.get_flystick, if_neg (not_or.mpr ⟨not_lt.mpr h0, not_le.mpr hlt⟩),
      vecGet_eq_get sl.act_flystick i h0 hb]
  · intro h
    rw [DTracklib.get_flystick, if_pos h]
  · intro h0 hb hlt
    rw [DTracklib.get_meatool, if_neg (not_or.mpr ⟨not_lt.mpr h0, not_le.mpr hlt⟩),
      vecGet_eq_get sl.act_meatool i h0 hb]
  · intro h
    rw [DTracklib.get_meatool, if_pos h]
  · intro h0 hb hlt
    rw [DTracklib.get_glove, if_neg (not_or.mpr ⟨not_lt.mpr h0, not_le.mpr hlt⟩),
      vecGet_eq_get sl.act_glove i h0 hb]
  · intro h
    rw [DTracklib.get_glove, if_pos h]
  · intro h0 hm hlt
    rw [DTracklib.get_marker, if_neg (not_or.mpr ⟨not_lt.mpr h0, not_le.mpr hlt⟩),
      vecGet_eq_get sl.act_marker i h0 hm]
  · intro h
    rw [DTracklib.get_marker, if_pos h]

/-- A concrete stored marker used to exercise the accessors. -/
def sampleMarker : dtrack_marker_type :=
  { id := 7, quality := 1, loc := fun _ => 2 }

/-- A concrete `DTrack` facade state holding one marker. -/
def DTrack.oneMarkerState : DTrackState :=
  { DTrack.emptyState with act_num_marker := 1, act_marker := [sampleMarker] }

/-- Witness for the amended C2: the in-range marker access returns the
stored element, and an out-of-range flystick access returns the quality -1
dummy with the requested index as id. -/
theorem claim2_amended_witness :
    (0:ℤ) ≤ 0 ∧ (0:ℤ).toNat < DTrack.oneMarkerState.act_marker.length ∧
    (0:ℤ) < DTrack.oneMarkerState.act_num_marker ∧
    DTrack.get_marker DTrack.oneMarkerState 0 = some sampleMarker ∧
    DTrack.emptyState.act_num_flystick ≤ 3 ∧
    DTrack.get_flystick DTrack.emptyState 3 = some (DTrack.dummy_flystick 3) := by
  have h := claim2_amended_accessor_fallback DTrack.oneMarkerState DTrack2.emptyState
    DTracklib.initState 0
  have h2 := claim2_amended_accessor_fallback DTrack.emptyState DTrack2.emptyState
    DTracklib.initState 3
  obtain ⟨-, -, -, -, -, -, -, -, c9, -⟩ := h
  obtain ⟨-, -, -, c4, -⟩ := h2
  refine ⟨by decide, by decide, by decide, ?_, by decide, ?_⟩
  · exact c9 (by decide) (by decide) (by decide)
  · exact (c4 (by decide)).1

/-- C5: on every successful SDK receive, `DTrack::receive` returns `true`,
the stored counts equal the SDK counts, and for every entity type the
stored collection is, element for element in the original order, the
field-by-field copy of the SDK collection with the `double → float` cast
`d2f`; the copy step carries exactly the id, quality, location and
rotation (and for flysticks and hands the button/joystick/finger data). -/
theorem claim5_receive_success_copies_frame
    (d2f : CDouble → CFloat) (s : DTrackState) (f : SdkFrame) :
    (DTrack.receive d2f s (some f)).1 = true ∧
    ((DTrack.receive d2f s (some f)).2.act_num_body = (f.bodies.length : ℤ) ∧
      (DTrack.receive d2f s (some f)).2.act_body.length = f.bodies.length ∧
      ∀ i : ℕ, (DTrack.receive d2f s (some f)).2.act_body[i]? =
        (f.bodies[i]?).map (convBody d2f)) ∧
    ((DTrack.receive d2f s (some f)).2.act_num_flystick = (f.flysticks.length : ℤ) ∧
      (DTrack.receive d2f s (some f)).2.act_flystick.length = f.flysticks.length ∧
      ∀ i : ℕ, (DTrack.receive d2f s (some f)).2.act_flystick[i]? =
        (f.flysticks[i]?).map (convFlyStick d2f)) ∧
    ((DTrack.receive d2f s (some f)).2.act_num_meatool = (f.meatools.length : ℤ) ∧
      (DTrack.receive d2f s (some f)).2.act_meatool.length = f.meatools.length ∧
      ∀ i : ℕ, (DTrack.receive d2f s (some f)).2.act_meatool[i]? =
        (f.meatools[i]?).map (convMeaTool d2f)) ∧
    ((DTrack.receive d2f s (some f)).2.act_num_hand = (f.hands.length : ℤ) ∧
      (DTrack.receive d2f s (some f)).2.act_hand.length = f.hands.length ∧
      ∀ i : ℕ, (DTrack.receive d2f s (some f)).2.act_hand[i]? =
        (f.hands[i]?).map (convHand d2f)) ∧
    ((DTrack.receive d2f s (some f)).2.act_num_marker = (f.markers.length : ℤ) ∧
      (DTrack.receive d2f s (some f)).2.act_marker.length = f.markers.length ∧
      ∀ i : ℕ, (DTrack.receive d2f s (some f)).2.act_marker[i]? =
        (f.markers[i]?).map (convMarker d2f)) ∧
    (∀ b : DTrack_Body_Type_d, (convBody d2f b).id = b.id ∧
      (convBody d2f b).quality = d2f b.quality ∧
      (∀ j, (convBody d2f b).loc j = d2f (b.loc j)) ∧
      (∀ j, (convBody d2f b).rot j = d2f (b.rot j))) ∧
    (∀ b : DTrack_FlyStick_Type_d, (convFlyStick d2f b).id = b.id ∧
      (convFlyStick d2f b).quality = d2f b.quality ∧
      (convFlyStick d2f b).num_button = b.num_button ∧
      (∀ j, (convFlyStick d2f b).button j = b.button j) ∧
      (convFlyStick d2f b).num_joystick = b.num_joystick ∧
      (∀ j, (convFlyStick d2f b).joystick j = d2f (b.joystick j)) ∧
      (∀ j, (convFlyStick d2f b).loc j = d2f (b.loc j)) ∧
      (∀ j, (convFlyStick d2f b).rot j = d2f (b.rot j))) ∧
    (∀ b : DTrack_MeaTool_Type_d, (convMeaTool d2f b).id = b.id ∧
      (convMeaTool d2f b).quality = d2f b.quality ∧
      (∀ j, (convMeaTool d2f b).loc j = d2f (b.loc j)) ∧
      (∀ j, (convMeaTool d2f b).rot j = d2f (b.rot j))) ∧
    (∀ b : DTrack_Hand_Type_d, (convHand d2f b).id = b.id ∧
      (convHand d2f b).quality = d2f b.quality ∧
      (convHand d2f b).lr = b.lr ∧ (convHand d2f b).nfinger = b.nfinger ∧
      (∀ j, (convHand d2f b).loc j = d2f (b.loc j)) ∧
      (∀ j, (convHand d2f b).rot j = d2f (b.rot j)) ∧
      (∀ k, (convHand d2f b).finger k = convFinger d2f (b.finger k))) ∧
    (∀ b : DTrack_Marker_Type_d, (convMarker d2f b).id = b.id ∧
      (convMarker d2f b).quality = d2f b.quality ∧
      (∀ j, (convMarker d2f b).loc j = d2f (b.loc j))) := by
  refine ⟨rfl,
    ⟨rfl, by simp [DTrack.receive], fun i => by simp [DTrack.receive]⟩,
    ⟨rfl, by simp [DTrack.receive], fun i => by simp [DTrack.receive]⟩,
    ⟨rfl, by simp [DTrack.receive], fun i => by simp [DTrack.receive]⟩,
    ⟨rfl, by simp [DTrack.receive], fun i => by simp [DTrack.receive]⟩,
    ⟨rfl, by simp [DTrack.receive], fun i => by simp [DTrack.receive]⟩,
    fun b => ⟨rfl, rfl, fun _ => rfl, fun _ => rfl⟩,
    fun b => ⟨rfl, rfl, rfl, fun _ => rfl, rfl, fun _ => rfl, fun _ => rfl, fun _ => rfl⟩,
    fun b => ⟨rfl, rfl, fun _ => rfl, fun _ => rfl⟩,
    fun b => ⟨rfl, rfl, rfl, rfl, fun _ => rfl, fun _ => rfl, fun _ => rfl⟩,
    fun b => ⟨rfl, rfl, fun _ => rfl⟩⟩

/-- C6: `DTrack2::set_parameter(category, name, value)` consults the
command exchange at exactly the string
`"dtrack2 set " ++ category ++ " " ++ name ++ " " ++ value` and returns
`true` iff the exchange reports result 1 (the `"dtrack2 ok"` reply); in
particular `set_parameter "cam" "exp" "50"` sends
`"dtrack2 set cam exp 50"`. -/
theorem claim6_set_parameter_command_string
    (exchange : String → ℤ) (category name value : String) :
    DTrack2.set_parameter exchange category name value =
      (1 == exchange ("dtrack2 set " ++ category ++ " " ++ name ++ " " ++ value)) ∧
    (DTrack2.set_parameter exchange category name value = true ↔
      exchange ("dtrack2 set " ++ category ++ " " ++ name ++ " " ++ value) = 1) ∧
    DTrack2.set_parameter exchange "cam" "exp" "50" =
      (1 == exchange "dtrack2 set cam exp 50") := by
  have lit : ("dtrack2 " ++ "set " : String) = "dtrack2 set " := rfl
  have key : "dtrack2 " ++ ("set " ++ (category ++ " " ++ name ++ " " ++ value)) =
      "dtrack2 set " ++ category ++ " " ++ name ++ " " ++ value := by
    simp only [← String.append_assoc, lit]
  have h1 : DTrack2.set_parameter exchange category name value =
      (1 == exchange ("dtrack2 set " ++ category ++ " " ++ name ++ " " ++ value)) := by
    rw [DTrack2.set_parameter, DTrack2.set_parameter_total, DTrack2.send_command, key]
  refine ⟨h1, ?_, rfl⟩
  rw [h1]
  constructor
  · intro hb
    exact (eq_of_beq hb).symm
  · intro he
    simp [he]

/-- C7: after a command exchange, `DTrack2::get_lasterror(int&)` writes
the last device-side error code into its out-parameter and returns `true`
iff that code is nonzero; the string overload returns `false` leaving its
out-parameter untouched when the code is 0, and writes the description and
returns `true` when it is nonzero. -/
theorem claim7_get_lasterror
    (sv : DTrack2ServerState) (ec : ℤ) (es : String) :
    (DTrack2.get_lasterror_code sv ec).1 = sv.lastDTrackError ∧
    ((DTrack2.get_lasterror_code sv ec).2 = true ↔ sv.lastDTrackError ≠ 0) ∧
    (sv.lastDTrackError = 0 →
      DTrack2.get_lasterror_string sv es = (es, false)) ∧
    (sv.lastDTrackError ≠ 0 →
      DTrack2.get_lasterror_string sv es = (sv.lastDTrackErrorDescription, true)) := by
  refine ⟨rfl, ?_, ?_, ?_⟩
  · simp [DTrack2.get_lasterror_code, ne_comm]
  · intro h
    rw [DTrack2.get_lasterror_string, if_pos h.symm]
  · intro h
    rw [DTrack2.get_lasterror_string, if_neg (fun he => h he.symm)]

/-- A concrete SDK command-channel error state. -/
def sampleServerState : DTrack2ServerState :=
  { lastDTrackError := 2, lastDTrackErrorDescription := "invalid parameter" }

/-- Witness for C7 at a nonzero error code. -/
theorem claim7_witness :
    (DTrack2.get_lasterror_code sampleServerState 0).1 = 2 ∧
    (DTrack2.get_lasterror_code sampleServerState 0).2 = true ∧
    sampleServerState.lastDTrackError ≠ 0 ∧
    DTrack2.get_lasterror_string sampleServerState "" = ("invalid parameter", true) := by
  have h := claim7_get_lasterror sampleServerState 0 ""
  exact ⟨h.1, h.2.1.mpr (by decide), by decide, h.2.2.2 (by decide)⟩

/-- C8: if the SDK layer delivers only frames whose flystick button and
joystick counts and hand finger counts lie within the protocol maxima
(16, 8, 5), then every flystick and hand record stored by
`DTrack::receive` keeps `0 ≤ num_button ≤ 16`, `0 ≤ num_joystick ≤ 8` and
`0 ≤ nfinger ≤ 5`, so each count is the length of the valid prefix of its
fixed-size array. -/
theorem claim8_counts_bounded
    (d2f : CDouble → CFloat) (s : DTrackState) (f : SdkFrame)
    (hfs : ∀ g ∈ f.flysticks, 0 ≤ g.num_button ∧ g.num_button ≤ 16 ∧
      0 ≤ g.num_joystick ∧ g.num_joystick ≤ 8)
    (hhd : ∀ g ∈ f.hands, 0 ≤ g.nfinger ∧ g.nfinger ≤ 5) :
    (∀ g ∈ (DTrack.receive d2f s (some f)).2.act_flystick,
      0 ≤ g.num_button ∧ g.num_button ≤ 16 ∧ 0 ≤ g.num_joystick ∧ g.num_joystick ≤ 8) ∧
    (∀ g ∈ (DTrack.receive d2f s (some f)).2.act_hand,
      0 ≤ g.nfinger ∧ g.nfinger ≤ 5) := by
  constructor
  · intro g hg
    rw [show (DTrack.receive d2f s (some f)).2.act_flystick
        = f.flysticks.map (convFlyStick d2f) from rfl] at hg
    rcases List.mem_map.mp hg with ⟨a, ha, rfl⟩
    exact hfs a ha
  · intro g hg
    rw [show (DTrack.receive d2f s (some f)).2.act_hand
        = f.hands.map (convHand d2f) from rfl] at hg
    rcases List.mem_map.mp hg with ⟨a, ha, rfl⟩
    exact hhd a ha

/-- A concrete SDK flystick with in-range counts. -/
def sampleSdkFlystick : DTrack_FlyStick_Type_d :=
  { id := 0, quality := 1, num_button := 2, button := fun _ => 0
    num_joystick := 2, joystick := fun _ => 0, loc := fun _ => 0, rot := fun _ => 0 }

/-- A concrete SDK hand with an in-range finger count. -/
def sampleSdkHand : DTrack_Hand_Type_d :=
  { id := 0, quality := 1, lr := 0, nfinger := 3, loc := fun _ => 0, rot := fun _ => 0
    finger := fun _ =>
      { loc := fun _ => 0, rot := fun _ => 0, radiustip := 0
        lengthphalanx := fun _ => 0, anglephalanx := fun _ => 0 } }

/-- A concrete SDK frame with one flystick and one hand. -/
def sampleFrame8 : SdkFrame :=
  { bodies := [], flysticks := [sampleSdkFlystick], meatools := []
    hands := [sampleSdkHand], markers := [] }

/-- Witness for C8 at a one-flystick, one-hand frame. -/
theorem claim8_witness :
    (∀ g ∈ sampleFrame8.flysticks, 0 ≤ g.num_button ∧ g.num_button ≤ 16 ∧
      0 ≤ g.num_joystick ∧ g.num_joystick ≤ 8) ∧
    (∀ g ∈ sampleFrame8.hands, 0 ≤ g.nfinger ∧ g.nfinger ≤ 5) ∧
    (∀ g ∈ (DTrack.receive id DTrack.emptyState (some sampleFrame8)).2.act_flystick,
      0 ≤ g.num_button ∧ g.num_button ≤ 16 ∧ 0 ≤ g.num_joystick ∧ g.num_joystick ≤ 8) := by
  have hfs : ∀ g ∈ sampleFrame8.flysticks, 0 ≤ g.num_button ∧ g.num_button ≤ 16 ∧
      0 ≤ g.num_joystick ∧ g.num_joystick ≤ 8 := by decide
  have hhd : ∀ g ∈ sampleFrame8.hands, 0 ≤ g.nfinger ∧ g.nfinger ≤ 5 := by decide
  exact ⟨hfs, hhd, (claim8_counts_bounded id DTrack.emptyState sampleFrame8 hfs hhd).1⟩

/-- C10: with a valid local data port, `DTracklib::send` returns `true`
for each of the six recognized command codes whatever `sdk->sendCommand`
returned (its boolean result is discarded), and in that case a command
string is sent; for an unrecognized code, or an invalid data port, it
returns `false` without sending anything. -/
theorem claim10_send_result
    (udpResult udpResult' : Bool) (cmd : ℕ) (val : ℤ) :
    (cmd ∈ DTracklib.recognizedCmds →
      (DTracklib.send true udpResult cmd val).1 = true ∧
      ((DTracklib.send true udpResult cmd val).2).isSome = true) ∧
    (cmd ∉ DTracklib.recognizedCmds →
      DTracklib.send true udpResult cmd val = (false, none)) ∧
    DTracklib.send false udpResult cmd val = (false, none) ∧
    DTracklib.send true udpResult cmd val = DTracklib.send true udpResult' cmd val := by
  refine ⟨?_, ?_, rfl, rfl⟩
  · intro h
    simp only [DTracklib.recognizedCmds, List.mem_cons, List.not_mem_nil, or_false] at h
    rcases h with rfl | rfl | rfl | rfl | rfl | rfl <;> exact ⟨rfl, rfl⟩
  · intro h
    simp only [DTracklib.recognizedCmds, List.mem_cons, List.not_mem_nil, or_false,
      not_or] at h
    obtain ⟨h1, h2, h3, h4, h5, h6⟩ := h
    simp [DTracklib.send, h1, h2, h3, h4, h5, h6]

/-- Witness for C10: a recognized code returns `true`, the unrecognized
code 1234 returns `false` with nothing sent. -/
theorem claim10_witness :
    DTRACKLIB_CMD_SEND_DATA ∈ DTracklib.recognizedCmds ∧
    (DTracklib.send true false DTRACKLIB_CMD_SEND_DATA 0).1 = true ∧
    1234 ∉ DTracklib.recognizedCmds ∧
    DTracklib.send true false 1234 0 = (false, none) := by
  have h := claim10_send_result false true DTRACKLIB_CMD_SEND_DATA 0
  have h' := claim10_send_result false true 1234 0
  exact ⟨by decide, (h.1 (by decide)).1, by decide, h'.2.1 (by decide)⟩
